import Mathlib

/-!
Verification development for the dockwright deployment orchestrator.

The Go sources are shallowly embedded: pure helpers become Lean functions,
and every effect (environment variables, filesystem stats, file reads, YAML
parsing by the external library, subprocess spawning and exit codes) is
routed through an explicit `World` record.  Runner steps return a `StepOut`
holding the trace of spawned processes, the dry-run command plans that were
emitted, and the error, so that properties about "no process is spawned"
and about constructed argument vectors can be stated directly.
-/

namespace Dockwright

/-- A spawned external process: program, argument vector, and the payload
written to its input stream (models `cmd.StdinPipe`). -/
structure Proc where
  program : String
  args : List String
  stdinPayload : Option String
deriving Repr, DecidableEq

/-- The ambient world: environment variables (`os.Getenv`, empty string when
unset), filesystem existence (`os.Stat` succeeding / not `IsNotExist`),
file reads, the external YAML library's parses of a kubeconfig, tool lookup
(`exec.LookPath`), the docker daemon liveness probe, and the exit status of
spawned processes. -/
structure World where
  env : String → String
  fileExists : String → Bool
  readFile : String → Option String
  parseContexts : String → Option (List String)
  parseCurrentContext : String → Option String
  toolOnPath : String → Bool
  dockerDaemonRunning : Bool
  currentDirName : String
  homeDir : Option String
  procExit : Proc → Bool

/-- `Config` struct: all configuration values for Dockwright. -/
structure Config where
  artifactName : String
  helmFlavour : String
  dockerNamespace : String
  dockerHost : String
  kubernetesConfig : String
  kubernetesContext : String
  env : List String
  dryRun : Bool
  runDockerBuild : Bool
  autoApprove : Bool
deriving Repr, DecidableEq

/-- `ConfigField`: metadata for a single configuration option. -/
structure ConfigField where
  name : String
  configPath : String
  flag : String
  description : String
  required : Bool
  default : String
deriving Repr, DecidableEq

/-- Errors raised by the pipeline, mirroring the `fmt.Errorf` sites. -/
inductive DwError where
  | fieldNotFound (name : String)
  | requiredField (name flag : String)
  | invalidFlavour (got : String)
  | missingEnvVar (name : String)
  | valuesFileMissing (path : String)
  | kubeconfigRead (path : String)
  | kubeconfigParse (path : String)
  | contextNotFound (ctx path : String)
  | toolMissing (tool : String)
  | daemonNotRunning
  | imageRepoUnset
  | chartNotFound (path : String)
  | credsMissing
  | externalTool (step : String)
deriving Repr, DecidableEq

/-- Whether an error is an ExternalToolError (non-zero exit / spawn failure
of an invoked subprocess). -/
def DwError.isExternalTool : DwError → Bool
  | .externalTool _ => true
  | _ => false

/-- `filepath.Join` restricted to the shapes used by the sources. -/
def filepathJoin (a b : String) : String :=
  if b = "" then a else a ++ "/" ++ b

/-- `defaultKubeConfigPath`: `$HOME/.kube/config`, empty when the home
directory is unavailable. -/
def defaultKubeConfigPath (w : World) : String :=
  match w.homeDir with
  | none => ""
  | some home => home ++ "/.kube/config"

/-- `currentKubeContext`: read the default kubeconfig and extract its
`current-context`; empty string on any read or parse failure. -/
def currentKubeContext (w : World) : String :=
  match w.readFile (defaultKubeConfigPath w) with
  | none => ""
  | some content =>
    match w.parseCurrentContext content with
    | none => ""
    | some ctx => ctx

/-- `ConfigFields`: the full ordered field registry. -/
def ConfigFields (w : World) : List ConfigField :=
  [ { name := "artifactName", configPath := "artifactName", flag := "artifact-name",
      description := "Name of the artifact", required := true,
      default := w.currentDirName },
    { name := "helmFlavour", configPath := "helm.flavour", flag := "helm-flavour",
      description := "Helm chart flavour (stateful or stateless)", required := true,
      default := "" },
    { name := "dockerNamespace", configPath := "docker.namespace", flag := "docker-namespace",
      description := "Docker registry namespace", required := false,
      default := "" },
    { name := "dockerHost", configPath := "docker.host", flag := "docker-host",
      description := "Docker registry host", required := false,
      default := w.env "REGISTRY_HOST" },
    { name := "kubernetesConfig", configPath := "kubernetes.config", flag := "kubernetes-config",
      description := "Path to kubernetes config file", required := true,
      default := defaultKubeConfigPath w },
    { name := "kubernetesContext", configPath := "kubernetes.context", flag := "kubernetes-context",
      description := "Kubernetes context to use", required := true,
      default := currentKubeContext w },
    { name := "env", configPath := "env", flag := "env",
      description := "Comma-separated list of environments (e.g., staging,production)",
      required := false, default := "" },
    { name := "dryRun", configPath := "dry-run", flag := "dry-run",
      description := "Exercise the deployment pipeline without mutating resources",
      required := false, default := "false" },
    { name := "runDockerBuild", configPath := "docker.build", flag := "docker-build",
      description := "Whether to run Docker build", required := false,
      default := "true" },
    { name := "autoApprove", configPath := "auto-approve", flag := "auto-approve",
      description := "Skip confirmation prompts and proceed automatically",
      required := false, default := "false" } ]

/-- The CLI flag layer: `changed` is pflag's per-flag "user touched it"
record (`cmd.Flags().Changed`), `value` the flag's current string
(which holds the registered default when the flag was never set). -/
structure CLIFlags where
  changed : String → Bool
  value : String → String

/-- `resolveFieldValue`: determine a field's value by precedence
CLI flag (when changed) > config file (when set) > descriptor default.
`fileCfg` models viper: `some v` when `IsSet` with `GetString` = `v`. -/
def resolveFieldValue (cli : CLIFlags) (fileCfg : String → Option String)
    (field : ConfigField) : String :=
  if cli.changed field.flag then cli.value field.flag
  else
    match fileCfg field.configPath with
    | some v => v
    | none => field.default

/-- `strings.ToLower` on the ASCII range (the only inputs the coercion
tokens exercise), written as a structural character map. -/
def strToLower (s : String) : String :=
  String.mk (s.data.map Char.toLower)

/-- `parseBool`: parse a string to bool. -/
def parseBool (value : String) : Bool :=
  value == "true" || value == "1" || strToLower value == "yes"

/-- `parseList`: split on the separator, trim whitespace, drop empty
segments, preserve order. -/
def parseList (value sep : String) : List String :=
  if value = "" then []
  else ((value.splitOn sep).map String.trim).filter (fun s => s ≠ "")

/-- `setConfigField`: assign a named field on the `Config` struct,
with bool and list coercions (the Go uses reflection over the Title-cased
name; the dispatch is rendered as an explicit match). -/
def setConfigField (cfg : Config) (name value : String) : Except DwError Config :=
  match name with
  | "artifactName" => .ok { cfg with artifactName := value }
  | "helmFlavour" => .ok { cfg with helmFlavour := value }
  | "dockerNamespace" => .ok { cfg with dockerNamespace := value }
  | "dockerHost" => .ok { cfg with dockerHost := value }
  | "kubernetesConfig" => .ok { cfg with kubernetesConfig := value }
  | "kubernetesContext" => .ok { cfg with kubernetesContext := value }
  | "env" => .ok { cfg with env := parseList value "," }
  | "dryRun" => .ok { cfg with dryRun := parseBool value }
  | "runDockerBuild" => .ok { cfg with runDockerBuild := parseBool value }
  | "autoApprove" => .ok { cfg with autoApprove := parseBool value }
  | _ => .error (.fieldNotFound name)

/-- The zero `Config` that `LoadConfig` starts from. -/
def emptyConfig : Config :=
  { artifactName := "", helmFlavour := "", dockerNamespace := "", dockerHost := "",
    kubernetesConfig := "", kubernetesContext := "", env := [],
    dryRun := false, runDockerBuild := false, autoApprove := false }

/-- `LoadConfig`: resolve every registry field by precedence and assign it. -/
def loadConfig (cli : CLIFlags) (fileCfg : String → Option String) (w : World) :
    Except DwError Config :=
  (ConfigFields w).foldlM
    (fun cfg field => setConfigField cfg field.name (resolveFieldValue cli fileCfg field))
    emptyConfig

/-- `Config.ImageRepository`: `host/namespace/artifactName`, error when any
of the three parts is empty. -/
def imageRepository (cfg : Config) : Except DwError String :=
  if cfg.dockerHost = "" ∨ cfg.dockerNamespace = "" ∨ cfg.artifactName = "" then
    .error .imageRepoUnset
  else
    .ok (cfg.dockerHost ++ "/" ++ cfg.dockerNamespace ++ "/" ++ cfg.artifactName)

/-- `Config.ImageTag`: `repository:latest`. -/
def imageTag (cfg : Config) : Except DwError String :=
  match imageRepository cfg with
  | .error e => .error e
  | .ok repo => .ok (repo ++ ":latest")

/-- `Config.ShouldRunDockerBuild`: a Dockerfile exists and the
runDockerBuild flag is on. -/
def shouldRunDockerBuild (cfg : Config) (w : World) : Bool :=
  w.fileExists "Dockerfile" && cfg.runDockerBuild

/-- `Config.ChartPath`: the install root joined with the flavour. -/
def chartPath (cfg : Config) : String :=
  filepathJoin "/usr/local/share/dockwright/charts" cfg.helmFlavour

/-! ### Validator -/

/-- `ValidationResult`: outcome of one validation check. -/
structure ValidationResult where
  name : String
  icon : String
  message : String
  err : Option DwError
deriving Repr, DecidableEq

/-- `getFieldValue`: read a resolved field back by its registry name (the
env list counts as set exactly when non-empty). -/
def getFieldValue (cfg : Config) : String → String
  | "artifactName" => cfg.artifactName
  | "helmFlavour" => cfg.helmFlavour
  | "dockerNamespace" => cfg.dockerNamespace
  | "dockerHost" => cfg.dockerHost
  | "kubernetesConfig" => cfg.kubernetesConfig
  | "kubernetesContext" => cfg.kubernetesContext
  | "env" => if cfg.env.length > 0 then "set" else ""
  | _ => ""

/-- `validateConfig` (check 1): every required registry field must resolve
to a non-empty value; fails at the first offender, naming field and flag. -/
def validateConfig (cfg : Config) (w : World) : Option DwError :=
  (ConfigFields w).findSome? fun field =>
    if field.required = true ∧ getFieldValue cfg field.name = "" then
      some (.requiredField field.name field.flag)
    else none

/-- `validateHelmFlavour` (check 2): flavour must be exactly `stateful`
or `stateless`. -/
def validateHelmFlavour (cfg : Config) : Option DwError :=
  if cfg.helmFlavour ≠ "stateful" ∧ cfg.helmFlavour ≠ "stateless" then
    some (.invalidFlavour cfg.helmFlavour)
  else none

/-- `validateEnvVars` (check 3): `REGISTRY_USERNAME` and `REGISTRY_PASSWORD`
must both be non-empty; fails naming the first missing one. -/
def validateEnvVars (w : World) : Option DwError :=
  ["REGISTRY_USERNAME", "REGISTRY_PASSWORD"].findSome? fun envVar =>
    if w.env envVar = "" then some (.missingEnvVar envVar) else none

/-- The conventional path of the per-environment values file. -/
def envValuesPath (e : String) : String :=
  ".dockwright/helm/" ++ e ++ ".values.yaml"

/-- `validateEnvValueFiles` (check 4): every requested environment's values
file must exist; fails at the first missing one, naming its path. -/
def validateEnvValueFiles (cfg : Config) (w : World) : Option DwError :=
  cfg.env.findSome? fun e =>
    if w.fileExists (envValuesPath e) then none
    else some (.valuesFileMissing (envValuesPath e))

/-- `validateKubeContext` (check 5): when a context is configured, the
kubeconfig at the configured path must read, parse, and contain it. -/
def validateKubeContext (cfg : Config) (w : World) : Option DwError :=
  if cfg.kubernetesContext = "" then none
  else
    match w.readFile cfg.kubernetesConfig with
    | none => some (.kubeconfigRead cfg.kubernetesConfig)
    | some content =>
      match w.parseContexts content with
      | none => some (.kubeconfigParse cfg.kubernetesConfig)
      | some ctxs =>
        if cfg.kubernetesContext ∈ ctxs then none
        else some (.contextNotFound cfg.kubernetesContext cfg.kubernetesConfig)

/-- `validateTools` (check 6): `docker` and `helm` must be on the path and
the docker daemon must answer `docker info`. -/
def validateTools (w : World) : Option DwError :=
  match ["docker", "helm"].findSome?
      (fun tool => if w.toolOnPath tool then none else some (DwError.toolMissing tool)) with
  | some e => some e
  | none => if w.dockerDaemonRunning then none else some .daemonNotRunning

/-- The ordered check table of `ValidateAll`: name, icon, and the check's
outcome. -/
def checkList (cfg : Config) (w : World) : List (String × String × Option DwError) :=
  [ ("Configuration", "✅", validateConfig cfg w),
    ("Helm flavour", "⎈ ", validateHelmFlavour cfg),
    ("Environment variables", "🔐", validateEnvVars w),
    ("Environment values files", "📄", validateEnvValueFiles cfg w),
    ("Kubernetes context", "☸️ ", validateKubeContext cfg w),
    ("System tools", "🛠️ ", validateTools w) ]

/-- The `ValidateAll` loop: append one result per executed check and stop
at the first failing one, returning its error. -/
def runChecks : List (String × String × Option DwError) →
    List ValidationResult × Option DwError
  | [] => ([], none)
  | (n, i, e) :: rest =>
    let r : ValidationResult :=
      { name := n, icon := i, message := i ++ " Validated - " ++ n, err := e }
    match e with
    | some err => ([r], some err)
    | none =>
      let (rs, fin) := runChecks rest
      (r :: rs, fin)

/-- `ValidateAll`: run all checks in fixed order, fail-fast. -/
def validateAll (cfg : Config) (w : World) : List ValidationResult × Option DwError :=
  runChecks (checkList cfg w)

/-! ### Runner steps

Each step yields a `StepOut`: the processes actually spawned, the dry-run
command plans emitted (`[DRY-RUN] Would run: ...` lines, tokenized), and
the step's error. -/

/-- Observable outcome of a runner step. -/
structure StepOut where
  spawned : List Proc
  planned : List (List String)
  err : Option DwError
deriving Repr, DecidableEq

/-- `DockerRunner.build`: `docker build -t <tag> .`, or its plan in
dry-run mode. -/
def dockerBuild (cfg : Config) (w : World) (tag : String) : StepOut :=
  if cfg.dryRun then
    { spawned := [], planned := [["docker", "build", "-t", tag, "."]], err := none }
  else
    let p : Proc := { program := "docker", args := ["build", "-t", tag, "."],
                      stdinPayload := none }
    { spawned := [p], planned := [],
      err := if w.procExit p then none else some (.externalTool "docker build") }

/-- `DockerRunner.login`: require both registry credential variables, then
`docker login <host> -u <user> --password-stdin` with the password written
to the process's input stream; in dry-run mode only the non-secret plan
`docker login <host> -u <user>` is emitted. -/
def dockerLogin (cfg : Config) (w : World) : StepOut :=
  let username := w.env "REGISTRY_USERNAME"
  let password := w.env "REGISTRY_PASSWORD"
  if username = "" ∨ password = "" then
    { spawned := [], planned := [], err := some .credsMissing }
  else if cfg.dryRun then
    { spawned := [], planned := [["docker", "login", cfg.dockerHost, "-u", username]],
      err := none }
  else
    let p : Proc := { program := "docker",
                      args := ["login", cfg.dockerHost, "-u", username, "--password-stdin"],
                      stdinPayload := some password }
    { spawned := [p], planned := [],
      err := if w.procExit p then none else some (.externalTool "docker login") }

/-- `DockerRunner.push`: `docker push <tag>`, or its plan in dry-run mode. -/
def dockerPush (cfg : Config) (w : World) (tag : String) : StepOut :=
  if cfg.dryRun then
    { spawned := [], planned := [["docker", "push", tag]], err := none }
  else
    let p : Proc := { program := "docker", args := ["push", tag], stdinPayload := none }
    { spawned := [p], planned := [],
      err := if w.procExit p then none else some (.externalTool "docker push") }

/-- `DockerRunner.Run`: skip entirely unless `ShouldRunDockerBuild`;
otherwise compute the image tag and run build, login, push in order,
aborting at the first failing step. -/
def dockerRun (cfg : Config) (w : World) : StepOut :=
  if shouldRunDockerBuild cfg w = false then
    { spawned := [], planned := [], err := none }
  else
    match imageTag cfg with
    | .error e => { spawned := [], planned := [], err := some e }
    | .ok tag =>
      let b := dockerBuild cfg w tag
      match b.err with
      | some _ => b
      | none =>
        let l := dockerLogin cfg w
        match l.err with
        | some _ =>
          { spawned := b.spawned ++ l.spawned, planned := b.planned ++ l.planned,
            err := l.err }
        | none =>
          let pu := dockerPush cfg w tag
          { spawned := b.spawned ++ l.spawned ++ pu.spawned,
            planned := b.planned ++ l.planned ++ pu.planned,
            err := pu.err }

/-! ### Helm runner -/

/-- The optional base values file's path. -/
def baseValuesPath : String := ".dockwright/helm/values.yaml"

/-- The per-environment half of `collectValuesFiles`: each requested
environment's file in request order, failing at the first missing one. -/
def collectEnvFiles (w : World) : List String → Except DwError (List String)
  | [] => .ok []
  | e :: rest =>
    if w.fileExists (envValuesPath e) then
      match collectEnvFiles w rest with
      | .error err => .error err
      | .ok tail => .ok (envValuesPath e :: tail)
    else .error (.valuesFileMissing (envValuesPath e))

/-- `HelmRunner.collectValuesFiles`: the base file first when it exists,
then the per-environment files in request order. -/
def collectValuesFiles (cfg : Config) (w : World) : Except DwError (List String) :=
  match collectEnvFiles w cfg.env with
  | .error e => .error e
  | .ok envFiles =>
    .ok ((if w.fileExists baseValuesPath then [baseValuesPath] else []) ++ envFiles)

/-- `HelmRunner.buildArgs`: the core deploy argument vector. -/
def buildArgs (cfg : Config) (chart : String) (valuesFiles : List String) :
    List String :=
  ["upgrade", "--install", cfg.artifactName, chart, "--kubeconfig", cfg.kubernetesConfig]
  ++ (if cfg.kubernetesContext ≠ "" then ["--kube-context", cfg.kubernetesContext] else [])
  ++ valuesFiles.flatMap (fun f => ["--values", f])

/-- `HelmRunner.buildImageArgs`: the two `--set` image overrides, present
exactly when `ShouldRunDockerBuild`; errors when the repository cannot be
computed. -/
def buildImageArgs (cfg : Config) (w : World) : Except DwError (List String) :=
  if shouldRunDockerBuild cfg w then
    match imageRepository cfg with
    | .error e => .error e
    | .ok repo =>
      .ok ["--set", "image.repository=" ++ repo, "--set", "image.tag=latest"]
  else .ok []

/-- The argument-vector construction half of `HelmRunner.Run`: chart
existence check, values-file collection, core args, image overrides. -/
def helmArgs (cfg : Config) (w : World) : Except DwError (List String) :=
  if w.fileExists (chartPath cfg) = false then
    .error (.chartNotFound (chartPath cfg))
  else
    match collectValuesFiles cfg w with
    | .error e => .error e
    | .ok files =>
      match buildImageArgs cfg w with
      | .error e => .error e
      | .ok imgs => .ok (buildArgs cfg (chartPath cfg) files ++ imgs)

/-- `HelmRunner.execute`: in dry-run mode append `--dry-run` and emit only
the plan; otherwise spawn `helm` with the vector. -/
def helmExecute (cfg : Config) (w : World) (args : List String) : StepOut :=
  if cfg.dryRun then
    { spawned := [], planned := ["helm" :: (args ++ ["--dry-run"])], err := none }
  else
    let p : Proc := { program := "helm", args := args, stdinPayload := none }
    { spawned := [p], planned := [],
      err := if w.procExit p then none else some (.externalTool "helm") }

/-- `HelmRunner.Run`: construct the vector, then execute or simulate. -/
def helmRun (cfg : Config) (w : World) : StepOut :=
  match helmArgs cfg w with
  | .error e => { spawned := [], planned := [], err := some e }
  | .ok args => helmExecute cfg w args

/-- Overwrite one environment variable of a world (used to state
noninterference of the secret). -/
def setEnvVar (w : World) (k v : String) : World :=
  { w with env := fun x => if x = k then v else w.env x }

/-! ### Concrete fixtures -/

/-- A concrete world: credentials and registry host set, Dockerfile, base
and staging values files and the stateless chart present, kubeconfig at
`/k` parsing to the single context `ctx`, tools installed, daemon up,
all spawned processes exiting zero. -/
def testWorld : World :=
  { env := fun k =>
      if k = "REGISTRY_USERNAME" then "alice"
      else if k = "REGISTRY_PASSWORD" then "s3cret"
      else if k = "REGISTRY_HOST" then "reg.example.com"
      else ""
    fileExists := fun p =>
      p == "Dockerfile" || p == ".dockwright/helm/values.yaml" ||
      p == ".dockwright/helm/staging.values.yaml" ||
      p == "/usr/local/share/dockwright/charts/stateless"
    readFile := fun p => if p = "/k" then some "kubecfg" else none
    parseContexts := fun c => if c = "kubecfg" then some ["ctx"] else none
    parseCurrentContext := fun _ => none
    toolOnPath := fun _ => true
    dockerDaemonRunning := true
    currentDirName := "svc"
    homeDir := none
    procExit := fun _ => true }

/-- A concrete resolved configuration matching `testWorld`. -/
def testCfg : Config :=
  { artifactName := "svc", helmFlavour := "stateless", dockerNamespace := "acme",
    dockerHost := "reg.example.com", kubernetesConfig := "/k",
    kubernetesContext := "ctx", env := ["staging"], dryRun := false,
    runDockerBuild := true, autoApprove := false }

/-- A CLI layer where only `--artifact-name` was touched by the user; every
flag still carries a machinery default string. -/
def testCLI : CLIFlags :=
  { changed := fun f => f == "artifact-name"
    value := fun f => if f == "artifact-name" then "cli-svc" else "machinery-default" }

/-- A project config file setting only `helm.flavour`. -/
def testFileCfg : String → Option String :=
  fun p => if p = "helm.flavour" then some "stateful" else none

/-- The registry's artifact-name descriptor as instantiated by `testWorld`. -/
def artifactField : ConfigField :=
  { name := "artifactName", configPath := "artifactName", flag := "artifact-name",
    description := "Name of the artifact", required := true, default := "svc" }

/-- The registry's helm-flavour descriptor. -/
def flavourField : ConfigField :=
  { name := "helmFlavour", configPath := "helm.flavour", flag := "helm-flavour",
    description := "Helm chart flavour (stateful or stateless)", required := true,
    default := "" }

/-- The registry's docker-host descriptor as instantiated by `testWorld`. -/
def hostField : ConfigField :=
  { name := "dockerHost", configPath := "docker.host", flag := "docker-host",
    description := "Docker registry host", required := false,
    default := "reg.example.com" }

/-! ### Claims -/

/-- C1: for every configuration field in the registry, the resolved value
follows strict precedence — the CLI flag's string whenever the user
explicitly set the flag (the `changed` record, independent of whether the
value equals the default), otherwise the config-file value whenever the
field's config path is set there, otherwise the descriptor's default; an
unset CLI flag never shadows a config-file value whatever string the flag
machinery holds. -/
theorem resolve_field_precedence (w : World) (cli : CLIFlags)
    (fileCfg : String → Option String) (field : ConfigField)
    (hmem : field ∈ ConfigFields w) :
    (cli.changed field.flag = true →
      resolveFieldValue cli fileCfg field = cli.value field.flag) ∧
    (cli.changed field.flag = false →
      (∀ v, fileCfg field.configPath = some v →
        resolveFieldValue cli fileCfg field = v) ∧
      (fileCfg field.configPath = none →
        resolveFieldValue cli fileCfg field = field.default)) := by
  unfold resolveFieldValue
  refine ⟨fun h => by simp [h], fun h => ⟨fun v hv => by simp [h, hv], fun hv => by simp [h, hv]⟩⟩

/-- C1 witness: on the concrete fixtures, the touched `--artifact-name`
flag wins, the untouched `--helm-flavour` flag yields the file value
despite its machinery default, and the untouched, file-absent
`--docker-host` flag yields the descriptor default. -/
theorem resolve_field_precedence_witness :
    resolveFieldValue testCLI testFileCfg artifactField = "cli-svc" ∧
    resolveFieldValue testCLI testFileCfg flavourField = "stateful" ∧
    resolveFieldValue testCLI testFileCfg hostField = "reg.example.com" :=
  ⟨(resolve_field_precedence testWorld testCLI testFileCfg artifactField
      (by decide)).1 (by decide),
   ((resolve_field_precedence testWorld testCLI testFileCfg flavourField
      (by decide)).2 (by decide)).1 "stateful" (by decide),
   ((resolve_field_precedence testWorld testCLI testFileCfg hostField
      (by decide)).2 (by decide)).2 (by decide)⟩

/-- C2 counterexample: the claim says `"TRUE"` coerces to true, but
`parseBool` compares `"true"` and `"1"` case-sensitively and lowercases
only for the `"yes"` comparison, so `parseBool "TRUE"` is false. -/
theorem parseBool_TRUE_is_false : parseBool "TRUE" = false := by decide

/-- C2 (amended): boolean coercion accepts exactly the literal `"true"`,
the literal `"1"`, and any string whose ASCII lowercase is `"yes"`; so
`"true"`, `"1"`, `"yes"`, `"Yes"`, `"YES"` coerce to true while `"TRUE"`,
`""`, `"false"`, `"no"`, `"0"` and every other string coerce to false. -/
theorem parseBool_characterization :
    (∀ v : String, parseBool v = true ↔
      (v = "true" ∨ v = "1" ∨ strToLower v = "yes")) ∧
    parseBool "true" = true ∧ parseBool "1" = true ∧ parseBool "yes" = true ∧
    parseBool "Yes" = true ∧ parseBool "YES" = true ∧
    parseBool "TRUE" = false ∧ parseBool "" = false ∧
    parseBool "false" = false ∧ parseBool "no" = false ∧
    parseBool "0" = false := by
  refine ⟨fun v => ?_, by decide, by decide, by decide, by decide, by decide,
    by decide, by decide, by decide, by decide, by decide⟩
  simp [parseBool, or_assoc]

/-- Any error produced while collecting per-environment files is a
values-file-missing error, hence not an ExternalToolError. -/
theorem collectEnvFiles_err_not_external (w : World) :
    ∀ (l : List String) (e : DwError),
      collectEnvFiles w l = .error e → e.isExternalTool = false := by
  intro l
  induction l with
  | nil => intro e h; simp [collectEnvFiles] at h
  | cons x rest ih =>
    intro e h
    unfold collectEnvFiles at h
    by_cases hx : w.fileExists (envValuesPath x) = true
    · simp only [hx, if_true] at h
      cases hr : collectEnvFiles w rest with
      | error err => rw [hr] at h; cases h; exact ih _ hr
      | ok tail => rw [hr] at h; cases h
    · simp only [eq_false_of_ne_true hx, Bool.false_eq_true, if_false] at h
      cases h; rfl

/-- Any `collectValuesFiles` error is a values-file-missing error. -/
theorem collectValuesFiles_err_not_external (cfg : Config) (w : World) (e : DwError)
    (h : collectValuesFiles cfg w = .error e) : e.isExternalTool = false := by
  unfold collectValuesFiles at h
  cases hr : collectEnvFiles w cfg.env with
  | error err => rw [hr] at h; cases h; exact collectEnvFiles_err_not_external w _ _ hr
  | ok tail => rw [hr] at h; cases h

/-- Any `ImageRepository` error is the unset-parts error. -/
theorem imageRepository_err_shape (cfg : Config) (e : DwError)
    (h : imageRepository cfg = .error e) : e = .imageRepoUnset := by
  unfold imageRepository at h
  split at h
  · cases h; rfl
  · cases h

/-- Any `ImageTag` error is the unset-parts error. -/
theorem imageTag_err_shape (cfg : Config) (e : DwError)
    (h : imageTag cfg = .error e) : e = .imageRepoUnset := by
  unfold imageTag at h
  cases hr : imageRepository cfg with
  | error err => rw [hr] at h; cases h; exact imageRepository_err_shape cfg _ hr
  | ok repo => rw [hr] at h; cases h

/-- Any `buildImageArgs` error is the unset-parts error, hence not an
ExternalToolError. -/
theorem buildImageArgs_err_shape (cfg : Config) (w : World) (e : DwError)
    (h : buildImageArgs cfg w = .error e) : e = .imageRepoUnset := by
  unfold buildImageArgs at h
  split at h
  · cases hr : imageRepository cfg with
    | error err => rw [hr] at h; cases h; exact imageRepository_err_shape cfg _ hr
    | ok repo => rw [hr] at h; cases h
  · cases h

/-- Any error out of the argument-vector construction is a chart-missing,
values-file-missing, or image-repository error — never an
ExternalToolError. -/
theorem helmArgs_err_not_external (cfg : Config) (w : World) (e : DwError)
    (h : helmArgs cfg w = .error e) : e.isExternalTool = false := by
  unfold helmArgs at h
  split at h
  · cases h; rfl
  · cases hc : collectValuesFiles cfg w with
    | error err =>
      rw [hc] at h; cases h; exact collectValuesFiles_err_not_external cfg w _ hc
    | ok files =>
      rw [hc] at h
      cases hb : buildImageArgs cfg w with
      | error err =>
        rw [hb] at h; cases h
        rw [buildImageArgs_err_shape cfg w _ hb]; rfl
      | ok imgs => rw [hb] at h; cases h

/-- C3: `ValidateAll` executes its checks in the fixed order
required-fields, flavour, registry credentials, values files, cluster
context, toolchain, and stops at the first failure: whenever both check 1
and check 2 fail, the returned error is check 1's, and the result sequence
ends at that first failing entry with no later check represented. -/
theorem validateAll_fail_fast (cfg : Config) (w : World) (e₁ e₂ : DwError)
    (h1 : validateConfig cfg w = some e₁)
    (h2 : validateHelmFlavour cfg = some e₂) :
    validateAll cfg w =
      ([{ name := "Configuration", icon := "✅",
          message := "✅ Validated - Configuration", err := some e₁ }], some e₁) ∧
    (checkList cfg w).map (fun c => c.1) =
      ["Configuration", "Helm flavour", "Environment variables",
       "Environment values files", "Kubernetes context", "System tools"] := by
  constructor
  · unfold validateAll checkList runChecks
    rw [h1]
    rfl
  · rfl

/-- A configuration failing both the required-fields check (empty artifact
name) and the flavour check (invalid flavour). -/
def doublyBadCfg : Config :=
  { testCfg with artifactName := "", helmFlavour := "bogus" }

/-- C3 witness: on `doublyBadCfg` both check 1 and check 2 fail, and the
run reports exactly check 1's required-field error for `artifactName`,
with the result sequence stopping there. -/
theorem validateAll_fail_fast_witness :
    validateAll doublyBadCfg testWorld =
      ([{ name := "Configuration", icon := "✅",
          message := "✅ Validated - Configuration",
          err := some (.requiredField "artifactName" "artifact-name") }],
       some (.requiredField "artifactName" "artifact-name")) :=
  (validateAll_fail_fast doublyBadCfg testWorld
    (.requiredField "artifactName" "artifact-name") (.invalidFlavour "bogus")
    (by decide) (by decide)).1

/-- C4: with dry-run set, the build/authenticate/push workflow and the
deploy workflow spawn no external process and produce no ExternalToolError,
and the planned deploy vector is the vector a non-dry-run run with the same
configuration would execute with the simulate marker `--dry-run` appended
at the end. -/
theorem dry_run_no_spawn (cfg : Config) (w : World) (h : cfg.dryRun = true) :
    (dockerRun cfg w).spawned = [] ∧
    (helmRun cfg w).spawned = [] ∧
    (∀ e, (dockerRun cfg w).err = some e → e.isExternalTool = false) ∧
    (∀ e, (helmRun cfg w).err = some e → e.isExternalTool = false) ∧
    (∀ args, helmArgs cfg w = .ok args →
      (helmRun cfg w).planned = [("helm" :: args) ++ ["--dry-run"]] ∧
      helmArgs { cfg with dryRun := false } w = .ok args ∧
      (helmRun { cfg with dryRun := false } w).spawned =
        [{ program := "helm", args := args, stdinPayload := none }]) := by
  have hdocker : (dockerRun cfg w).spawned = [] ∧
      (∀ e, (dockerRun cfg w).err = some e → e.isExternalTool = false) := by
    unfold dockerRun
    split
    · exact ⟨rfl, by intro e he; cases he⟩
    · cases hit : imageTag cfg with
      | error e0 =>
        refine ⟨rfl, ?_⟩
        intro e he
        cases he
        rw [imageTag_err_shape cfg _ hit]; rfl
      | ok tag =>
        by_cases hc : w.env "REGISTRY_USERNAME" = "" ∨ w.env "REGISTRY_PASSWORD" = ""
        · simp [dockerBuild, dockerLogin, h, hc]
          rfl
        · simp [dockerBuild, dockerLogin, dockerPush, h, hc]
  refine ⟨hdocker.1, ?_, hdocker.2, ?_, ?_⟩
  · unfold helmRun
    cases ha : helmArgs cfg w with
    | error e => rfl
    | ok args => simp [helmExecute, h]
  · unfold helmRun
    cases ha : helmArgs cfg w with
    | error e =>
      intro e' he'; cases he'
      exact helmArgs_err_not_external cfg w _ ha
    | ok args => simp [helmExecute, h]
  · intro args ha
    have hsame : helmArgs { cfg with dryRun := false } w = helmArgs cfg w := rfl
    refine ⟨?_, hsame.trans ha, ?_⟩
    · unfold helmRun
      rw [ha]
      simp [helmExecute, h]
    · unfold helmRun
      rw [hsame.trans ha]
      simp [helmExecute]

/-- `testCfg` with dry-run switched on. -/
def dryCfg : Config := { testCfg with dryRun := true }

/-- The full deploy vector that `testCfg`/`testWorld` produce. -/
def fullArgs : List String :=
  ["upgrade", "--install", "svc", "/usr/local/share/dockwright/charts/stateless",
   "--kubeconfig", "/k", "--kube-context", "ctx",
   "--values", ".dockwright/helm/values.yaml",
   "--values", ".dockwright/helm/staging.values.yaml",
   "--set", "image.repository=reg.example.com/acme/svc", "--set", "image.tag=latest"]

/-- C4 witness: the concrete dry run spawns nothing and plans exactly the
real vector with `--dry-run` appended. -/
theorem dry_run_no_spawn_witness :
    (dockerRun dryCfg testWorld).spawned = [] ∧
    (helmRun dryCfg testWorld).planned = [("helm" :: fullArgs) ++ ["--dry-run"]] := by
  have hmain := dry_run_no_spawn dryCfg testWorld rfl
  exact ⟨hmain.1, (hmain.2.2.2.2 fullArgs rfl).1⟩

/-- C5: every successfully constructed deploy vector is exactly `upgrade`,
`--install`, the artifact name, the chart path, `--kubeconfig` with the
configured path, `--kube-context` with the context exactly when one is
configured, one `--values` pair per collected file in collection order,
and — exactly when the image build is eligible — the two `--set` image
overrides appended after all values-file flags. -/
theorem deploy_args_exact (cfg : Config) (w : World) (args : List String)
    (h : helmArgs cfg w = .ok args) :
    ∃ files, collectValuesFiles cfg w = .ok files ∧
      (shouldRunDockerBuild cfg w = true →
        ∃ repo, imageRepository cfg = .ok repo ∧
          args =
            ["upgrade", "--install", cfg.artifactName, chartPath cfg,
             "--kubeconfig", cfg.kubernetesConfig]
            ++ (if cfg.kubernetesContext ≠ "" then
                  ["--kube-context", cfg.kubernetesContext] else [])
            ++ files.flatMap (fun f => ["--values", f])
            ++ ["--set", "image.repository=" ++ repo, "--set", "image.tag=latest"]) ∧
      (shouldRunDockerBuild cfg w = false →
        args =
          ["upgrade", "--install", cfg.artifactName, chartPath cfg,
           "--kubeconfig", cfg.kubernetesConfig]
          ++ (if cfg.kubernetesContext ≠ "" then
                ["--kube-context", cfg.kubernetesContext] else [])
          ++ files.flatMap (fun f => ["--values", f])) := by
  unfold helmArgs at h
  split at h
  · cases h
  · cases hc : collectValuesFiles cfg w with
    | error e => rw [hc] at h; cases h
    | ok files =>
      rw [hc] at h
      cases hb : buildImageArgs cfg w with
      | error e => rw [hb] at h; cases h
      | ok imgs =>
        rw [hb] at h
        cases h
        refine ⟨files, rfl, ?_, ?_⟩
        · intro hs
          unfold buildImageArgs at hb
          rw [hs] at hb
          simp only [if_true] at hb
          cases hr : imageRepository cfg with
          | error e => rw [hr] at hb; cases hb
          | ok repo =>
            rw [hr] at hb
            cases hb
            exact ⟨repo, rfl, by simp [buildArgs, List.append_assoc]⟩
        · intro hs
          unfold buildImageArgs at hb
          rw [hs] at hb
          simp only [Bool.false_eq_true, if_false] at hb
          cases hb
          simp [buildArgs]

/-- C5 witness: the concrete configuration constructs `fullArgs`, whose
shape instantiates the exact-vector description. -/
theorem deploy_args_exact_witness :
    ∃ files, collectValuesFiles testCfg testWorld = .ok files ∧
      (shouldRunDockerBuild testCfg testWorld = true →
        ∃ repo, imageRepository testCfg = .ok repo ∧
          fullArgs =
            ["upgrade", "--install", testCfg.artifactName, chartPath testCfg,
             "--kubeconfig", testCfg.kubernetesConfig]
            ++ (if testCfg.kubernetesContext ≠ "" then
                  ["--kube-context", testCfg.kubernetesContext] else [])
            ++ files.flatMap (fun f => ["--values", f])
            ++ ["--set", "image.repository=" ++ repo, "--set", "image.tag=latest"]) ∧
      (shouldRunDockerBuild testCfg testWorld = false →
        fullArgs =
          ["upgrade", "--install", testCfg.artifactName, chartPath testCfg,
           "--kubeconfig", testCfg.kubernetesConfig]
          ++ (if testCfg.kubernetesContext ≠ "" then
                ["--kube-context", testCfg.kubernetesContext] else [])
          ++ files.flatMap (fun f => ["--values", f])) :=
  deploy_args_exact testCfg testWorld fullArgs rfl

/-- When every requested environment's file exists, collection succeeds
with the per-environment files in request order. -/
theorem collectEnvFiles_all_exist (w : World) :
    ∀ l : List String, (∀ e ∈ l, w.fileExists (envValuesPath e) = true) →
      collectEnvFiles w l = .ok (l.map envValuesPath) := by
  intro l
  induction l with
  | nil => intro _; rfl
  | cons x rest ih =>
    intro hall
    unfold collectEnvFiles
    rw [hall x (List.mem_cons_self x rest)]
    simp only [if_true]
    rw [ih (fun e he => hall e (List.mem_cons_of_mem x he))]
    rfl

/-- Collection fails at the first missing environment file, naming its
path. -/
theorem collectEnvFiles_first_missing (w : World) :
    ∀ (pre : List String) (e : String) (post : List String),
      (∀ x ∈ pre, w.fileExists (envValuesPath x) = true) →
      w.fileExists (envValuesPath e) = false →
      collectEnvFiles w (pre ++ e :: post) =
        .error (.valuesFileMissing (envValuesPath e)) := by
  intro pre
  induction pre with
  | nil =>
    intro e post _ hmiss
    unfold collectEnvFiles
    simp only [List.nil_append]
    rw [hmiss]
    rfl
  | cons x rest ih =>
    intro e post hall hmiss
    unfold collectEnvFiles
    simp only [List.cons_append]
    rw [hall x (List.mem_cons_self x rest)]
    simp only [if_true]
    rw [ih e post (fun y hy => hall y (List.mem_cons_of_mem x hy)) hmiss]

/-- C6: the values-file set is the base file exactly when it exists,
followed by each requested environment's file in request order; a missing
environment file fails collection naming that file's path, and in that
case the deploy workflow returns that error with no argument vector
constructed, nothing planned and nothing spawned. -/
theorem values_files_collection (cfg : Config) (w : World) :
    ((∀ e ∈ cfg.env, w.fileExists (envValuesPath e) = true) →
      collectValuesFiles cfg w =
        .ok ((if w.fileExists baseValuesPath then [baseValuesPath] else [])
          ++ cfg.env.map envValuesPath)) ∧
    (∀ (pre : List String) (e : String) (post : List String),
      cfg.env = pre ++ e :: post →
      (∀ x ∈ pre, w.fileExists (envValuesPath x) = true) →
      w.fileExists (envValuesPath e) = false →
      collectValuesFiles cfg w = .error (.valuesFileMissing (envValuesPath e)) ∧
      (w.fileExists (chartPath cfg) = true →
        helmRun cfg w =
          { spawned := [], planned := [],
            err := some (.valuesFileMissing (envValuesPath e)) })) := by
  constructor
  · intro hall
    unfold collectValuesFiles
    rw [collectEnvFiles_all_exist w cfg.env hall]
  · intro pre e post hsplit hpre hmiss
    have hcoll : collectValuesFiles cfg w =
        .error (.valuesFileMissing (envValuesPath e)) := by
      unfold collectValuesFiles
      rw [hsplit, collectEnvFiles_first_missing w pre e post hpre hmiss]
    refine ⟨hcoll, fun hchart => ?_⟩
    unfold helmRun helmArgs
    rw [hchart]
    simp only [Bool.true_eq_false, if_false]
    rw [hcoll]

/-- `testCfg` requesting `staging` (whose file exists) and `production`
(whose file is missing). -/
def missingEnvCfg : Config := { testCfg with env := ["staging", "production"] }

/-- C6 witness: with the base and staging files present, collection for
`[staging]` yields base then staging; for `[staging, production]` it fails
naming the production file, and the deploy workflow stops with that error
and an empty plan and trace. -/
theorem values_files_collection_witness :
    collectValuesFiles testCfg testWorld =
      .ok [".dockwright/helm/values.yaml", ".dockwright/helm/staging.values.yaml"] ∧
    collectValuesFiles missingEnvCfg testWorld =
      .error (.valuesFileMissing ".dockwright/helm/production.values.yaml") ∧
    helmRun missingEnvCfg testWorld =
      { spawned := [], planned := [],
        err := some (.valuesFileMissing ".dockwright/helm/production.values.yaml") } := by
  have hok := (values_files_collection testCfg testWorld).1 (by decide)
  have hbad := (values_files_collection missingEnvCfg testWorld).2
    ["staging"] "production" [] rfl (by decide) (by decide)
  exact ⟨hok, hbad.1, hbad.2 (by decide)⟩

/-- C7: whenever the run-image-build flag is false or no Dockerfile exists,
the image workflow succeeds with no subprocess spawned and nothing planned,
and the deploy vector carries no image overrides: it is exactly the base
vector over the collected values files. -/
theorem image_workflow_skip (cfg : Config) (w : World)
    (h : cfg.runDockerBuild = false ∨ w.fileExists "Dockerfile" = false) :
    shouldRunDockerBuild cfg w = false ∧
    dockerRun cfg w = { spawned := [], planned := [], err := none } ∧
    buildImageArgs cfg w = .ok [] ∧
    (∀ args, helmArgs cfg w = .ok args →
      ∃ files, collectValuesFiles cfg w = .ok files ∧
        args = buildArgs cfg (chartPath cfg) files) := by
  have hs : shouldRunDockerBuild cfg w = false := by
    unfold shouldRunDockerBuild
    rcases h with h | h <;> simp [h]
  refine ⟨hs, ?_, ?_, ?_⟩
  · unfold dockerRun
    rw [hs]
    rfl
  · unfold buildImageArgs
    rw [hs]
    rfl
  · intro args ha
    unfold helmArgs at ha
    split at ha
    · cases ha
    · cases hc : collectValuesFiles cfg w with
      | error e => rw [hc] at ha; cases ha
      | ok files =>
        rw [hc] at ha
        have hb : buildImageArgs cfg w = .ok [] := by
          unfold buildImageArgs; rw [hs]; rfl
        rw [hb] at ha
        cases ha
        exact ⟨files, rfl, List.append_nil _⟩

/-- `testCfg` with the image build disabled. -/
def noBuildCfg : Config := { testCfg with runDockerBuild := false }

/-- C7 witness: with `docker.build=false`, the concrete image workflow is a
silent success and the concrete deploy vector is the base vector with no
`--set` image overrides. -/
theorem image_workflow_skip_witness :
    dockerRun noBuildCfg testWorld = { spawned := [], planned := [], err := none } ∧
    ∃ files, collectValuesFiles noBuildCfg testWorld = .ok files ∧
      ["upgrade", "--install", "svc", "/usr/local/share/dockwright/charts/stateless",
       "--kubeconfig", "/k", "--kube-context", "ctx",
       "--values", ".dockwright/helm/values.yaml",
       "--values", ".dockwright/helm/staging.values.yaml"] =
        buildArgs noBuildCfg (chartPath noBuildCfg) files := by
  have hmain := image_workflow_skip noBuildCfg testWorld (Or.inl rfl)
  exact ⟨hmain.2.1, hmain.2.2.2 _ rfl⟩

/-- C8: the login step passes the registry password only through the
process's input stream: every spawned login process has the fixed argument
vector `login <host> -u <user> --password-stdin` with the password as its
input payload, the spawned argument vectors and the dry-run plans are
unchanged when the password changes (noninterference over non-empty
passwords), and the dry-run plan names host and user but is the
password-free `docker login <host> -u <user>`. -/
theorem login_password_noninterference (cfg : Config) (w : World) :
    (∀ p ∈ (dockerLogin cfg w).spawned,
      p.program = "docker" ∧
      p.args = ["login", cfg.dockerHost, "-u", w.env "REGISTRY_USERNAME",
                "--password-stdin"] ∧
      p.stdinPayload = some (w.env "REGISTRY_PASSWORD")) ∧
    (∀ p₁ p₂ : String, p₁ ≠ "" → p₂ ≠ "" →
      (dockerLogin cfg (setEnvVar w "REGISTRY_PASSWORD" p₁)).spawned.map Proc.args =
        (dockerLogin cfg (setEnvVar w "REGISTRY_PASSWORD" p₂)).spawned.map Proc.args ∧
      (dockerLogin cfg (setEnvVar w "REGISTRY_PASSWORD" p₁)).planned =
        (dockerLogin cfg (setEnvVar w "REGISTRY_PASSWORD" p₂)).planned) ∧
    (cfg.dryRun = true → w.env "REGISTRY_USERNAME" ≠ "" →
      w.env "REGISTRY_PASSWORD" ≠ "" →
      (dockerLogin cfg w).planned =
        [["docker", "login", cfg.dockerHost, "-u", w.env "REGISTRY_USERNAME"]] ∧
      (dockerLogin cfg w).spawned = []) := by
  refine ⟨?_, ?_, ?_⟩
  · intro p hp
    simp only [dockerLogin] at hp
    split at hp
    · simp at hp
    · split at hp
      · simp at hp
      · simp at hp
        subst hp
        exact ⟨rfl, rfl, rfl⟩
  · intro p₁ p₂ h1 h2
    by_cases hu0 : w.env "REGISTRY_USERNAME" = ""
    · constructor <;> simp [dockerLogin, setEnvVar, hu0, h1, h2]
    · by_cases hd : cfg.dryRun
      · constructor <;> simp [dockerLogin, setEnvVar, hu0, h1, h2, hd]
      · constructor <;> simp [dockerLogin, setEnvVar, hu0, h1, h2, hd]
  · intro hd hu hp
    constructor <;> simp [dockerLogin, hd, hu, hp]

/-- C8 witness: changing the password from `pw1` to `pw2` leaves the
concrete spawned argument vectors unchanged, and the concrete dry-run plan
is exactly `docker login reg.example.com -u alice`. -/
theorem login_password_noninterference_witness :
    ((dockerLogin testCfg (setEnvVar testWorld "REGISTRY_PASSWORD" "pw1")).spawned.map
        Proc.args =
      (dockerLogin testCfg (setEnvVar testWorld "REGISTRY_PASSWORD" "pw2")).spawned.map
        Proc.args) ∧
    (dockerLogin dryCfg testWorld).planned =
      [["docker", "login", "reg.example.com", "-u", "alice"]] :=
  ⟨((login_password_noninterference testCfg testWorld).2.1 "pw1" "pw2"
      (by decide) (by decide)).1,
   ((login_password_noninterference dryCfg testWorld).2.2 rfl
      (by decide) (by decide)).1⟩

/-- A configuration that passes every validation check yet has empty
docker namespace and host, with the image build eligible. -/
def gapCfg : Config := { testCfg with dockerNamespace := "", dockerHost := "" }

/-- C9: `ImageRepository` (and hence `ImageTag`) errors exactly when docker
host, docker namespace, or artifact name is empty; the registry marks
`dockerNamespace` and `dockerHost` not required; and a configuration
passing all six validation checks can still fail the image workflow and
the image-override construction with this error while the image build is
eligible. -/
theorem image_repository_error_gap :
    (∀ cfg : Config, (∃ e, imageRepository cfg = .error e) ↔
      (cfg.dockerHost = "" ∨ cfg.dockerNamespace = "" ∨ cfg.artifactName = "")) ∧
    (∀ cfg : Config, (∃ e, imageTag cfg = .error e) ↔
      (cfg.dockerHost = "" ∨ cfg.dockerNamespace = "" ∨ cfg.artifactName = "")) ∧
    (∀ (w : World) (f : ConfigField), f ∈ ConfigFields w →
      (f.name = "dockerNamespace" ∨ f.name = "dockerHost") → f.required = false) ∧
    (∃ (cfg : Config) (w : World),
      (validateAll cfg w).2 = none ∧
      shouldRunDockerBuild cfg w = true ∧
      (dockerRun cfg w).err = some .imageRepoUnset ∧
      buildImageArgs cfg w = .error .imageRepoUnset) := by
  have hrepo : ∀ cfg : Config, (∃ e, imageRepository cfg = .error e) ↔
      (cfg.dockerHost = "" ∨ cfg.dockerNamespace = "" ∨ cfg.artifactName = "") := by
    intro cfg
    constructor
    · rintro ⟨e, he⟩
      unfold imageRepository at he
      split at he
      · assumption
      · cases he
    · intro h
      refine ⟨.imageRepoUnset, ?_⟩
      unfold imageRepository
      rw [if_pos h]
  refine ⟨hrepo, ?_, ?_, ?_⟩
  · intro cfg
    rw [← hrepo cfg]
    unfold imageTag
    cases hr : imageRepository cfg with
    | error e => simp [hr]
    | ok repo => simp [hr]
  · intro w f hf hname
    simp only [ConfigFields, List.mem_cons, List.not_mem_nil, or_false] at hf
    rcases hf with rfl | rfl | rfl | rfl | rfl | rfl | rfl | rfl | rfl | rfl <;>
      first
        | rfl
        | (rcases hname with h | h <;> simp at h)
  · exact ⟨gapCfg, testWorld, rfl, rfl, rfl, rfl⟩

/-- C9 witness: the concrete all-checks-passing configuration with empty
docker namespace and host does fail image-repository construction. -/
theorem image_repository_error_gap_witness :
    ∃ e, imageRepository gapCfg = .error e :=
  (image_repository_error_gap.1 gapCfg).mpr (Or.inl rfl)

/-- `testCfg` with no requested environments. -/
def emptyEnvCfg : Config := { testCfg with env := [] }

/-- C10: a resolved configuration with an empty environments list passes
the required-fields check (the env descriptor is not required), its
values-file set is at most the base file, and the deploy vector carries no
per-environment `--values` flags: it is the base vector over the base-only
file list plus the image overrides. -/
theorem empty_env_accepted (cfg : Config) (w : World)
    (henv : cfg.env = [])
    (ha : cfg.artifactName ≠ "") (hf : cfg.helmFlavour ≠ "")
    (hk : cfg.kubernetesConfig ≠ "") (hc : cfg.kubernetesContext ≠ "") :
    validateConfig cfg w = none ∧
    (∀ f ∈ ConfigFields w, f.name = "env" → f.required = false) ∧
    collectValuesFiles cfg w =
      .ok (if w.fileExists baseValuesPath then [baseValuesPath] else []) ∧
    (∀ args, helmArgs cfg w = .ok args →
      ∃ imgs, buildImageArgs cfg w = .ok imgs ∧
        args = buildArgs cfg (chartPath cfg)
          (if w.fileExists baseValuesPath then [baseValuesPath] else []) ++ imgs) := by
  have hcoll : collectValuesFiles cfg w =
      .ok (if w.fileExists baseValuesPath then [baseValuesPath] else []) := by
    unfold collectValuesFiles
    rw [henv]
    simp [collectEnvFiles]
  refine ⟨?_, ?_, hcoll, ?_⟩
  · unfold validateConfig ConfigFields
    simp [List.findSome?, getFieldValue, ha, hf, hk, hc]
  · intro f hmem hname
    simp only [ConfigFields, List.mem_cons, List.not_mem_nil, or_false] at hmem
    rcases hmem with rfl | rfl | rfl | rfl | rfl | rfl | rfl | rfl | rfl | rfl <;>
      first
        | rfl
        | simp at hname
  · intro args hargs
    unfold helmArgs at hargs
    split at hargs
    · cases hargs
    · rw [hcoll] at hargs
      cases hb : buildImageArgs cfg w with
      | error e => rw [hb] at hargs; cases hargs
      | ok imgs =>
        rw [hb] at hargs
        cases hargs
        exact ⟨imgs, rfl, rfl⟩

/-- C10 witness: the concrete empty-environments configuration passes the
required-fields check and collects only the base values file. -/
theorem empty_env_accepted_witness :
    validateConfig emptyEnvCfg testWorld = none ∧
    collectValuesFiles emptyEnvCfg testWorld =
      .ok (if testWorld.fileExists baseValuesPath then [baseValuesPath] else []) := by
  have hmain := empty_env_accepted emptyEnvCfg testWorld rfl
    (by decide) (by decide) (by decide) (by decide)
  exact ⟨hmain.1, hmain.2.2.1⟩

end Dockwright
